import Mathlib

/-!
Verification of the comparison/analysis engine of the `gui_verification`
package: the bitmap similarity comparator (`visual.py`), the color contrast
analyzer (`accessibility.py`), and the geometric alignment / overlap
primitives (`layout.py`, `responsive.py`).

Python integers are modelled as `ℕ`/`ℤ` (with explicit `% 256` where numpy
uint8 arithmetic wraps), Python float arithmetic as exact rational (`ℚ`)
or real (`ℝ`) arithmetic, and fallible parsing as `Option`.
-/

namespace GuiVerification

/-! ### Bitmap Similarity Analyzer — `ScreenshotComparator._compare_images`
(`src/gui_verification/visual.py`, lines 143–181).

A bitmap is a row-major grid of RGB pixels (spec §3 "Bitmap": a 2-D grid of
RGB pixels of known width/height); decoding from PNG bytes and RGB-mode
conversion are external PIL behaviour and the grids here are already RGB. -/

/-- One RGB pixel: channel values are the uint8 values 0–255. -/
abbrev Pixel := ℕ × ℕ × ℕ

/-- An in-memory RGB bitmap, row-major. -/
structure Img where
  rows : List (List Pixel)
deriving DecidableEq

/-- PIL `Image.size` is `(width, height)`. -/
def Img.size (img : Img) : ℕ × ℕ := ((img.rows.headD []).length, img.rows.length)

/-- The flat sequence of channel values of the numpy array `np.array(img)`
(row-major, channels innermost), i.e. the elements the numpy reductions
`np.mean`/`np.sum` run over. -/
def Img.channels (img : Img) : List ℕ :=
  img.rows.flatMap (fun row => row.flatMap (fun p => [p.1, p.2.1, p.2.2]))

/-- numpy uint8 subtraction `x - y`: wraps modulo 256. -/
def u8_sub (x y : ℕ) : ℕ := (((x : ℤ) - (y : ℤ)) % 256).toNat

/-- numpy uint8 squaring `d ** 2`: the result dtype stays uint8, so the
square also wraps modulo 256.  One element of `(img1_array - img2_array) ** 2`
in `_compare_images` (visual.py line 163). -/
def u8_sq_diff (x y : ℕ) : ℕ := (u8_sub x y) ^ 2 % 256

/-- `mse = np.mean((img1_array - img2_array) ** 2)` (visual.py line 163):
the uint8 squared differences are averaged in float64, modelled as `ℚ`. -/
def mse (img1 img2 : Img) : ℚ :=
  let ds := List.zipWith u8_sq_diff img1.channels img2.channels
  (ds.sum : ℚ) / (ds.length : ℚ)

/-- `similarity = 1 - (mse / (max_pixel_value ** 2))` with
`max_pixel_value = 255` (visual.py lines 166–167). -/
def similarity (img1 img2 : Img) : ℚ := 1 - mse img1 img2 / (255 ^ 2 : ℚ)

/-- One channel of `ImageChops.difference(img1, img2)`: the true absolute
difference `|x - y|` (PIL computes this without wraparound). -/
def abs_diff (x y : ℕ) : ℕ := max x y - min x y

/-- `different_pixels = np.sum(diff_array > self.tolerance)`
(visual.py line 171): counts array *entries* (i.e. channels) above the
tolerance. -/
def different_pixels (img1 img2 : Img) (tolerance : ℕ) : ℕ :=
  (List.zipWith abs_diff img1.channels img2.channels).countP (fun d => tolerance < d)

/-- `total_pixels = diff_array.size` (visual.py line 172): the number of
array entries, i.e. height × width × 3 for an RGB image. -/
def total_pixels (img1 img2 : Img) : ℕ :=
  (List.zipWith abs_diff img1.channels img2.channels).length

/-- `different_pixels / total_pixels * 100` (visual.py line 178). -/
def difference_percentage (img1 img2 : Img) (tolerance : ℕ) : ℚ :=
  (different_pixels img1 img2 tolerance : ℚ) / (total_pixels img1 img2 : ℚ) * 100

/-- The similarity score and the `differences` metrics dict of
`_compare_images` (visual.py lines 155–181), computed on the two images
after the resize step.  The metrics dict is modelled as an association
list so that its key set is observable. -/
def compare_images_core (img1 img2 : Img) (tolerance : ℕ) : ℚ × List (String × ℚ) :=
  (similarity img1 img2,
   [("mse", mse img1 img2),
    ("different_pixels", (different_pixels img1 img2 tolerance : ℚ)),
    ("total_pixels", (total_pixels img1 img2 : ℚ)),
    ("difference_percentage", difference_percentage img1 img2 tolerance)])

/-- `_compare_images(img1, img2)` (visual.py lines 143–181): `img1` is the
reference image, `img2` the actual screenshot.  If the sizes differ,
`img2 = img2.resize(img1.size, Image.Resampling.LANCZOS)` — PIL's LANCZOS
resampling is external library code, passed in here as the abstract
function `resize` (its arguments are exactly the image being resized and
the target size, as in the source). -/
def compare_images (resize : Img → ℕ × ℕ → Img) (img1 img2 : Img)
    (tolerance : ℕ) : ℚ × List (String × ℚ) :=
  let img2' := if img1.size ≠ img2.size then resize img2 img1.size else img2
  compare_images_core img1 img2' tolerance

/-- A 1×1 solid black bitmap. -/
def black1x1 : Img := ⟨[[(0, 0, 0)]]⟩

/-- A 1×1 solid white bitmap. -/
def white1x1 : Img := ⟨[[(255, 255, 255)]]⟩

/-- The identity "resize" (never invoked when the two sizes agree). -/
def id_resize : Img → ℕ × ℕ → Img := fun img _ => img

/-- A 1×2 solid black bitmap (size (2,1), differing from `black1x1`). -/
def black1x2 : Img := ⟨[[(0, 0, 0), (0, 0, 0)]]⟩

/-! ### Color Contrast Analyzer — `ContrastChecker`
(`src/gui_verification/accessibility.py`).

`_parse_color` (lines 418–438) applies, in order, the Python regexes
`rgb\((\d+),\s*(\d+),\s*(\d+)\)`, `rgba\((\d+),\s*(\d+),\s*(\d+),\s*[\d.]+\)`
and `#([0-9a-fA-F]{2})([0-9a-fA-F]{2})([0-9a-fA-F]{2})` with `re.match`
(anchored at the start of the string only; trailing characters are allowed).
Each regex is deterministic (every `+`-class is disjoint from the character
that follows it, so greedy matching never needs to backtrack), and the
parsers below implement exactly that maximal-munch matching over the
string's character list. -/

/-- Python regex `\s` (ASCII whitespace as relevant to CSS color strings). -/
def ws_char (c : Char) : Bool :=
  c = ' ' || c = '\t' || c = '\n' || c = '\r' || c = '\x0b' || c = '\x0c'

/-- Numeric value of a decimal digit character. -/
def digit_val (c : Char) : ℕ := c.toNat - '0'.toNat

/-- Match `(\d+)` (one or more decimal digits, greedily) and convert the
matched digits with Python `int`. -/
def match_digits (l : List Char) : Option (ℕ × List Char) :=
  let ds := l.takeWhile (fun c => c.isDigit)
  if ds.isEmpty then none
  else some (ds.foldl (fun a c => 10 * a + digit_val c) 0, l.dropWhile (fun c => c.isDigit))

/-- Match one literal character. -/
def match_char (c : Char) : List Char → Option (List Char)
  | x :: xs => if x = c then some xs else none
  | [] => none

/-- Match a literal character sequence. -/
def match_lit : List Char → List Char → Option (List Char)
  | [], l => some l
  | c :: cs, l => (match_char c l).bind (match_lit cs)

/-- Match `,\s*` followed by `(\d+)`. -/
def match_comma_digits (l : List Char) : Option (ℕ × List Char) :=
  (match_char ',' l).bind (fun l => match_digits (l.dropWhile ws_char))

/-- The regex `rgb\((\d+),\s*(\d+),\s*(\d+)\)` under `re.match`
(accessibility.py line 424). -/
def match_rgb (l : List Char) : Option (ℕ × ℕ × ℕ) :=
  match match_lit "rgb(".data l with
  | none => none
  | some l1 =>
    match match_digits l1 with
    | none => none
    | some (r, l2) =>
      match match_comma_digits l2 with
      | none => none
      | some (g, l3) =>
        match match_comma_digits l3 with
        | none => none
        | some (b, l4) =>
          match match_char ')' l4 with
          | none => none
          | some _ => some (r, g, b)

/-- The regex `rgba\((\d+),\s*(\d+),\s*(\d+),\s*[\d.]+\)` under `re.match`
(accessibility.py line 429); the alpha component is matched but discarded. -/
def match_rgba (l : List Char) : Option (ℕ × ℕ × ℕ) :=
  match match_lit "rgba(".data l with
  | none => none
  | some l1 =>
    match match_digits l1 with
    | none => none
    | some (r, l2) =>
      match match_comma_digits l2 with
      | none => none
      | some (g, l3) =>
        match match_comma_digits l3 with
        | none => none
        | some (b, l4) =>
          match match_char ',' l4 with
          | none => none
          | some l5 =>
            let l6 := l5.dropWhile ws_char
            if (l6.takeWhile (fun c => c.isDigit || c = '.')).isEmpty then none
            else
              match match_char ')' (l6.dropWhile (fun c => c.isDigit || c = '.')) with
              | none => none
              | some _ => some (r, g, b)

/-- `[0-9a-fA-F]`. -/
def hex_char (c : Char) : Bool :=
  c.isDigit || ('a' ≤ c && c ≤ 'f') || ('A' ≤ c && c ≤ 'F')

/-- Value of a hexadecimal digit, as computed by Python `int(s, 16)`
(0 on non-hex input, which the callers never supply). -/
def hex_val (c : Char) : ℕ :=
  if c.isDigit then c.toNat - '0'.toNat
  else if 'a' ≤ c ∧ c ≤ 'f' then c.toNat - 'a'.toNat + 10
  else if 'A' ≤ c ∧ c ≤ 'F' then c.toNat - 'A'.toNat + 10
  else 0

/-- Match `([0-9a-fA-F]{2})` and convert it with `int(_, 16)`. -/
def match_hex_pair : List Char → Option (ℕ × List Char)
  | a :: b :: rest =>
      if hex_char a && hex_char b then some (16 * hex_val a + hex_val b, rest) else none
  | _ => none

/-- The regex `#([0-9a-fA-F]{2})([0-9a-fA-F]{2})([0-9a-fA-F]{2})` under
`re.match` (accessibility.py line 434). -/
def match_hex (l : List Char) : Option (ℕ × ℕ × ℕ) :=
  match match_char '#' l with
  | none => none
  | some l1 =>
    match match_hex_pair l1 with
    | none => none
    | some (r, l2) =>
      match match_hex_pair l2 with
      | none => none
      | some (g, l3) =>
        match match_hex_pair l3 with
        | none => none
        | some (b, _) => some (r, g, b)

/-- `ContrastChecker._parse_color` (accessibility.py lines 418–438):
empty or `'transparent'` input yields `None`; otherwise the three regexes
are tried in order and the first match wins; no match yields `None`. -/
def parse_color (s : String) : Option (ℕ × ℕ × ℕ) :=
  if s = "" || s = "transparent" then none
  else
    match match_rgb s.data with
    | some c => some c
    | none =>
      match match_rgba s.data with
      | some c => some c
      | none => match_hex s.data

/-- The sRGB channel linearization inside `get_luminance`
(accessibility.py lines 463–465); Python float arithmetic is modelled as
exact real arithmetic. -/
noncomputable def srgb_linear (c : ℝ) : ℝ :=
  if c ≤ 0.03928 then c / 12.92 else ((c + 0.055) / 1.055) ^ (2.4 : ℝ)

/-- `get_luminance` (accessibility.py lines 461–466): normalize each
channel to [0,1], linearize, and take the perceptual weighted sum. -/
noncomputable def get_luminance (rgb : ℕ × ℕ × ℕ) : ℝ :=
  let r := srgb_linear ((rgb.1 : ℝ) / 255)
  let g := srgb_linear ((rgb.2.1 : ℝ) / 255)
  let b := srgb_linear ((rgb.2.2 : ℝ) / 255)
  0.2126 * r + 0.7152 * g + 0.0722 * b

/-- `ContrastChecker._calculate_contrast_ratio` (accessibility.py lines
459–474): `(lighter + 0.05) / (darker + 0.05)`. -/
noncomputable def calculate_contrast_ratio (color1 color2 : ℕ × ℕ × ℕ) : ℝ :=
  let lum1 := get_luminance color1
  let lum2 := get_luminance color2
  (max lum1 lum2 + 0.05) / (min lum1 lum2 + 0.05)

/-- One entry of the `checks` list built by `_check_element_contrast`;
the numeric fields are present only on the success path, as in the
source's dicts.  The float-formatted success messages
(`f'Contrast ratio {ratio:.2f} ...'`) are not modelled (they format the
same numbers carried in the numeric fields). -/
structure ContrastCheck where
  ctype : String
  passed : Bool
  message : String
  ratio : Option ℝ := none
  required : Option ℝ := none
  large : Option Bool := none

/-- The result dict of `_check_element_contrast`: overall `passed` flag
plus the `checks` list. -/
structure ContrastResult where
  passed : Bool
  checks : List ContrastCheck

/-- `ContrastChecker._check_element_contrast` (accessibility.py lines
366–406), given the element's computed `color` and `backgroundColor`
strings.  The large-text classification (lines 374–377, from font size and
weight) is supplied as the Boolean `is_large`, per the analyzer contract;
`min_ratio` and `large_ratio` are the configured thresholds (defaults 4.5
and 3.0, lines 279–280).  When either color fails to parse (Python
`if text_color and background_color` is false), the check fails with the
message of line 404. -/
noncomputable def check_element_contrast (color_str bg_str : String)
    (is_large : Bool) (min_ratio large_ratio : ℝ) : ContrastResult :=
  match parse_color color_str, parse_color bg_str with
  | some tc, some bc =>
      let ratio := calculate_contrast_ratio tc bc
      let required := if is_large then large_ratio else min_ratio
      if required ≤ ratio then
        ⟨true, [⟨"contrast_ratio", true, "", some ratio, some required, some is_large⟩]⟩
      else
        ⟨false, [⟨"contrast_ratio", false, "", some ratio, some required, some is_large⟩]⟩
  | _, _ =>
      ⟨false, [⟨"contrast_ratio", false,
                "Could not determine text or background color", none, none, none⟩]⟩

/-! ### Geometric Alignment Analyzer — `AlignmentChecker`
(`src/gui_verification/layout.py`, lines 451–626). -/

/-- An element's bounding box `{x, y, width, height}` in device pixels
(non-negative, spec §3 "Bounding box"). -/
structure Bounds where
  x : ℕ
  y : ℕ
  width : ℕ
  height : ℕ
deriving DecidableEq

/-- One entry of the `checks` list built by the alignment checker.  The
`row` / `col` fields model the `'row'` / `'column'` keys that
`_check_grid_alignment` adds to a check dict (absent, i.e. `none`,
elsewhere). -/
structure Check where
  ctype : String
  passed : Bool
  message : String
  row : Option ℕ := none
  col : Option ℕ := none
deriving DecidableEq

/-- The alignment result dict: the `passed` flag and the `checks` list
(the `elements` / `alignment_type` echo fields carry no verification
content and are omitted). -/
structure AlignResult where
  passed : Bool
  checks : List Check
deriving DecidableEq

/-- Python `max(l)` on a non-empty list (callers only reach this with at
least two positions; the `[]` case, where Python would raise, is given the
junk value 0). -/
def list_max : List ℕ → ℕ
  | [] => 0
  | x :: xs => xs.foldl Nat.max x

/-- Python `min(l)` on a non-empty list (same caveat as `list_max`). -/
def list_min : List ℕ → ℕ
  | [] => 0
  | x :: xs => xs.foldl Nat.min x

/-- The repeated position-set check of `_check_horizontal_alignment` /
`_check_vertical_alignment` (layout.py lines 493–514 and analogues): if
all positions are equal (`len(set(positions)) == 1`) the check passes with
`aligned_msg`; otherwise `max - min` is compared against the tolerance. -/
def check_positions (ctype label aligned_msg : String) (positions : List ℕ)
    (tolerance : ℕ) : Check :=
  if positions.dedup.length = 1 then
    { ctype := ctype, passed := true, message := aligned_msg }
  else
    let max_diff := list_max positions - list_min positions
    if max_diff ≤ tolerance then
      { ctype := ctype, passed := true,
        message := label ++ " alignment within tolerance (" ++ toString max_diff ++ "px)" }
    else
      { ctype := ctype, passed := false,
        message := label ++ " alignment exceeds tolerance (" ++ toString max_diff ++
          "px > " ++ toString tolerance ++ "px)" }

/-- `AlignmentChecker._check_horizontal_alignment` (layout.py lines
490–540): checks top-edge positions (`y`) and vertical-center positions
(`y + height // 2`), appending both checks to the incoming result and
clearing `passed` on any failure. -/
def check_horizontal_alignment (bounds_list : List Bounds) (tolerance : ℕ)
    (result : AlignResult) : AlignResult :=
  let c1 := check_positions "top_alignment" "Top" "All elements aligned at top"
    (bounds_list.map (fun b => b.y)) tolerance
  let c2 := check_positions "center_alignment" "Center" "All elements center-aligned"
    (bounds_list.map (fun b => b.y + b.height / 2)) tolerance
  { passed := result.passed && c1.passed && c2.passed,
    checks := result.checks ++ [c1, c2] }

/-- `AlignmentChecker._check_vertical_alignment` (layout.py lines
542–592): as above with left-edge (`x`) and horizontal-center
(`x + width // 2`) positions. -/
def check_vertical_alignment (bounds_list : List Bounds) (tolerance : ℕ)
    (result : AlignResult) : AlignResult :=
  let c1 := check_positions "left_alignment" "Left" "All elements left-aligned"
    (bounds_list.map (fun b => b.x)) tolerance
  let c2 := check_positions "center_alignment" "Center" "All elements center-aligned"
    (bounds_list.map (fun b => b.x + b.width / 2)) tolerance
  { passed := result.passed && c1.passed && c2.passed,
    checks := result.checks ++ [c1, c2] }

/-- Helper for `chunk_rows`, structurally recursive on a fuel counter that
the caller sets to the list length (each step drops `columns ≥ 1`
elements, so the fuel never runs out before the list does). -/
def chunk_rows_aux (columns : ℕ) : ℕ → List Bounds → List (List Bounds)
  | _, [] => []
  | 0, _ :: _ => []
  | fuel + 1, x :: xs =>
    if columns = 0 then []
    else (x :: xs).take columns :: chunk_rows_aux columns fuel ((x :: xs).drop columns)

/-- The row partition of `_check_grid_alignment` (layout.py lines
600–603): consecutive slices of `columns` boxes, row-major.  `columns = 0`
(where Python `range` would raise) is mapped to `[]` and excluded by the
theorems' hypotheses. -/
def chunk_rows (columns : ℕ) (l : List Bounds) : List (List Bounds) :=
  chunk_rows_aux columns l.length l

/-- Tag a check dict with `check_result['row'] = i` (layout.py line 610). -/
def tag_row (i : ℕ) (c : Check) : Check := { c with row := some i }

/-- Tag a check dict with `check_result['column'] = j` (layout.py line 621). -/
def tag_col (j : ℕ) (c : Check) : Check := { c with col := some j }

/-- The column extraction of `_check_grid_alignment` (layout.py line 617):
`[row[col] for row in rows if col < len(row)]`. -/
def column_elems (rows : List (List Bounds)) (j : ℕ) : List Bounds :=
  rows.filterMap (fun r => r.get? j)

/-- The row loop of `_check_grid_alignment` (layout.py lines 606–613),
with `n` the index of the first row of `rows`: each row with more than one
element contributes the two checks of a fresh horizontal-alignment run,
tagged with the row index. -/
def grid_row_checks (tolerance : ℕ) (n : ℕ) : List (List Bounds) → List Check
  | [] => []
  | r :: rest =>
    (if 1 < r.length then
       ((check_horizontal_alignment r tolerance ⟨true, []⟩).checks).map (tag_row n)
     else []) ++ grid_row_checks tolerance (n + 1) rest

/-- The column loop of `_check_grid_alignment` (layout.py lines 616–624):
columns `j, j+1, ..., j+count-1` in order; each column with more than one
element contributes the two checks of a fresh vertical-alignment run,
tagged with the column index. -/
def grid_col_checks (tolerance : ℕ) (rows : List (List Bounds)) (j : ℕ) :
    ℕ → List Check
  | 0 => []
  | count + 1 =>
    (if 1 < (column_elems rows j).length then
       ((check_vertical_alignment (column_elems rows j) tolerance ⟨true, []⟩).checks).map
         (tag_col j)
     else []) ++ grid_col_checks tolerance rows (j + 1) count

/-- `AlignmentChecker._check_grid_alignment` (layout.py lines 594–626):
partition into rows, run all row checks then all column checks, append
every produced check to the incoming result, and clear `passed` if any
produced check failed. -/
def check_grid_alignment (bounds_list : List Bounds) (columns tolerance : ℕ)
    (result : AlignResult) : AlignResult :=
  let rows := chunk_rows columns bounds_list
  let new_checks := grid_row_checks tolerance 0 rows ++ grid_col_checks tolerance rows 0 columns
  { passed := result.passed && new_checks.all (fun c => c.passed),
    checks := result.checks ++ new_checks }

/-- `AlignmentChecker._check_alignment` (layout.py lines 451–488), given
the boxes of the resolved elements (element lookup itself is browser-side):
fewer than two elements fail immediately with the `insufficient_elements`
check of lines 463–470; otherwise the result dict (initially
`passed = True`, `checks = []`) is passed through the mode's checker; an
unknown mode returns it untouched. -/
def check_alignment (bounds_list : List Bounds) (alignment_type : String)
    (columns tolerance : ℕ) : AlignResult :=
  if bounds_list.length < 2 then
    { passed := false,
      checks := [{ ctype := "insufficient_elements", passed := false,
                   message := "Need at least 2 elements for alignment check" }] }
  else if alignment_type = "horizontal" then
    check_horizontal_alignment bounds_list tolerance ⟨true, []⟩
  else if alignment_type = "vertical" then
    check_vertical_alignment bounds_list tolerance ⟨true, []⟩
  else if alignment_type = "grid" then
    check_grid_alignment bounds_list columns tolerance ⟨true, []⟩
  else ⟨true, []⟩

/-- Six boxes in a 3-column, 2-row grid in which the whole second row sits
20px below its nominal position (rows at y = 0 and y = 50 + 20): every row
is still internally aligned and every column's x positions are unchanged. -/
def uniformly_shifted_grid : List Bounds :=
  [⟨0, 0, 80, 40⟩, ⟨100, 0, 80, 40⟩, ⟨200, 0, 80, 40⟩,
   ⟨0, 70, 80, 40⟩, ⟨100, 70, 80, 40⟩, ⟨200, 70, 80, 40⟩]

/-- Six boxes in a 3-column, 2-row grid in which one box of the second row
(the middle one) is shifted 20px down (y = 70 instead of 50), breaking
that row's internal alignment. -/
def one_box_shifted_grid : List Bounds :=
  [⟨0, 0, 80, 40⟩, ⟨100, 0, 80, 40⟩, ⟨200, 0, 80, 40⟩,
   ⟨0, 50, 80, 40⟩, ⟨100, 70, 80, 40⟩, ⟨200, 50, 80, 40⟩]

/-- Seven boxes in a 3-column grid: the third row has a single box. -/
def seven_box_grid : List Bounds :=
  [⟨0, 0, 80, 40⟩, ⟨100, 0, 80, 40⟩, ⟨200, 0, 80, 40⟩,
   ⟨0, 50, 80, 40⟩, ⟨100, 50, 80, 40⟩, ⟨200, 50, 80, 40⟩,
   ⟨0, 100, 80, 40⟩]

/-! ### Overlap predicate — `ResponsiveVerifier._elements_overlap`
(`src/gui_verification/responsive.py`, lines 323–329). -/

/-- `_elements_overlap(bounds1, bounds2)`: the source's Boolean expression
verbatim. -/
def elements_overlap (bounds1 bounds2 : Bounds) : Bool :=
  !(decide (bounds1.x + bounds1.width ≤ bounds2.x) ||
    decide (bounds2.x + bounds2.width ≤ bounds1.x) ||
    decide (bounds1.y + bounds1.height ≤ bounds2.y) ||
    decide (bounds2.y + bounds2.height ≤ bounds1.y))

/-- Modelled from the spec (§4.3 "Overlap detection"): box `a` is fully to
the left of box `b` when `a`'s right edge is at or before `b`'s left edge. -/
def fully_left_of (a b : Bounds) : Prop := a.x + a.width ≤ b.x

/-- Modelled from the spec (§4.3 "Overlap detection"): box `a` is fully
above box `b` when `a`'s bottom edge is at or before `b`'s top edge. -/
def fully_above (a b : Bounds) : Prop := a.y + a.height ≤ b.y

/-- A check carrying the row tag `i`. -/
def row_tagged (i : ℕ) (c : Check) : Bool := c.row = some i

/-- A check carrying the column tag `j`. -/
def col_tagged (j : ℕ) (c : Check) : Bool := c.col = some j

/-! ## Theorems -/

/-! ### Luminance helper lemmas -/

lemma srgb_linear_nonneg {c : ℝ} (hc : 0 ≤ c) : 0 ≤ srgb_linear c := by
  unfold srgb_linear
  split
  · exact div_nonneg hc (by norm_num)
  · exact Real.rpow_nonneg (div_nonneg (by linarith) (by norm_num)) _

lemma srgb_linear_le_one {c : ℝ} (hc : 0 ≤ c) (hc1 : c ≤ 1) : srgb_linear c ≤ 1 := by
  unfold srgb_linear
  split
  · rename_i h
    rw [div_le_one (by norm_num)]
    linarith [hc]
  · exact Real.rpow_le_one (div_nonneg (by linarith) (by norm_num))
      (by rw [div_le_one (by norm_num)]; linarith) (by norm_num)

lemma get_luminance_nonneg (x : ℕ × ℕ × ℕ) : 0 ≤ get_luminance x := by
  have h1 := srgb_linear_nonneg (c := (x.1 : ℝ) / 255) (by positivity)
  have h2 := srgb_linear_nonneg (c := (x.2.1 : ℝ) / 255) (by positivity)
  have h3 := srgb_linear_nonneg (c := (x.2.2 : ℝ) / 255) (by positivity)
  simp only [get_luminance]
  nlinarith

lemma get_luminance_le_one (x : ℕ × ℕ × ℕ) (h1 : x.1 ≤ 255) (h2 : x.2.1 ≤ 255)
    (h3 : x.2.2 ≤ 255) : get_luminance x ≤ 1 := by
  have d1 : ((x.1 : ℝ) / 255) ≤ 1 := by
    rw [div_le_one (by norm_num)]; exact_mod_cast h1
  have d2 : ((x.2.1 : ℝ) / 255) ≤ 1 := by
    rw [div_le_one (by norm_num)]; exact_mod_cast h2
  have d3 : ((x.2.2 : ℝ) / 255) ≤ 1 := by
    rw [div_le_one (by norm_num)]; exact_mod_cast h3
  have s1 := srgb_linear_le_one (c := (x.1 : ℝ) / 255) (by positivity) d1
  have s2 := srgb_linear_le_one (c := (x.2.1 : ℝ) / 255) (by positivity) d2
  have s3 := srgb_linear_le_one (c := (x.2.2 : ℝ) / 255) (by positivity) d3
  simp only [get_luminance]
  nlinarith

/-! ### Claim theorems (contrast analyzer) -/

/-- C5: `contrast_ratio((0,0,0),(255,255,255))` equals 21 exactly (black
has luminance 0, white has luminance 1), and for every RGB triple `x`,
`contrast_ratio(x,x)` equals 1. -/
theorem contrast_ratio_extremes :
    calculate_contrast_ratio (0, 0, 0) (255, 255, 255) = 21 ∧
    ∀ x : ℕ × ℕ × ℕ, calculate_contrast_ratio x x = 1 := by
  constructor
  · have hb : get_luminance (0, 0, 0) = 0 := by
      simp only [get_luminance, srgb_linear]
      norm_num
    have hw : get_luminance (255, 255, 255) = 1 := by
      simp only [get_luminance, srgb_linear]
      norm_num [Real.one_rpow]
    simp only [calculate_contrast_ratio, hb, hw]
    norm_num [max_def, min_def]
  · intro x
    have h := get_luminance_nonneg x
    simp only [calculate_contrast_ratio, max_self, min_self]
    rw [div_self]
    linarith

/-- C6: the contrast ratio is symmetric in its two color arguments. -/
theorem contrast_ratio_symm (a b : ℕ × ℕ × ℕ) :
    calculate_contrast_ratio a b = calculate_contrast_ratio b a := by
  simp only [calculate_contrast_ratio]
  rw [max_comm, min_comm]

/-- C10: for channels in [0,255], the contrast ratio always lies in the
closed interval [1, 21]. -/
theorem contrast_ratio_bounds (a b : ℕ × ℕ × ℕ)
    (ha1 : a.1 ≤ 255) (ha2 : a.2.1 ≤ 255) (ha3 : a.2.2 ≤ 255)
    (hb1 : b.1 ≤ 255) (hb2 : b.2.1 ≤ 255) (hb3 : b.2.2 ≤ 255) :
    1 ≤ calculate_contrast_ratio a b ∧ calculate_contrast_ratio a b ≤ 21 := by
  have h0a := get_luminance_nonneg a
  have h0b := get_luminance_nonneg b
  have h1a := get_luminance_le_one a ha1 ha2 ha3
  have h1b := get_luminance_le_one b hb1 hb2 hb3
  simp only [calculate_contrast_ratio]
  have hminpos : (0 : ℝ) < min (get_luminance a) (get_luminance b) + 0.05 := by
    have := le_min h0a h0b
    linarith
  constructor
  · rw [one_le_div hminpos]
    have := min_le_max (a := get_luminance a) (b := get_luminance b)
    linarith
  · have hmax : max (get_luminance a) (get_luminance b) ≤ 1 := max_le h1a h1b
    calc (max (get_luminance a) (get_luminance b) + 0.05) /
          (min (get_luminance a) (get_luminance b) + 0.05)
        ≤ (1 + 0.05) / (0 + 0.05) := by
          apply div_le_div₀ (by norm_num) (by linarith) (by norm_num)
          have := le_min h0a h0b
          linarith
      _ = 21 := by norm_num

/-- Witness for `contrast_ratio_bounds` at black vs. white. -/
theorem contrast_ratio_bounds_witness :
    1 ≤ calculate_contrast_ratio (0, 0, 0) (255, 255, 255) ∧
    calculate_contrast_ratio (0, 0, 0) (255, 255, 255) ≤ 21 :=
  contrast_ratio_bounds (0, 0, 0) (255, 255, 255) (by decide) (by decide) (by decide)
    (by decide) (by decide) (by decide)

/-! ### Claim theorems (alignment and overlap) -/

/-- C8: fewer than two boxes makes the alignment checker return the
failing `insufficient_elements` verdict (a total function: no exception). -/
theorem insufficient_elements_verdict (bounds_list : List Bounds)
    (alignment_type : String) (columns tolerance : ℕ)
    (h : bounds_list.length < 2) :
    check_alignment bounds_list alignment_type columns tolerance =
      { passed := false,
        checks := [{ ctype := "insufficient_elements", passed := false,
                     message := "Need at least 2 elements for alignment check" }] } := by
  unfold check_alignment
  rw [if_pos h]

/-- Witness for `insufficient_elements_verdict` on the empty box list. -/
theorem insufficient_elements_verdict_witness :
    check_alignment [] "horizontal" 2 5 =
      { passed := false,
        checks := [{ ctype := "insufficient_elements", passed := false,
                     message := "Need at least 2 elements for alignment check" }] } :=
  insufficient_elements_verdict [] "horizontal" 2 5 (by decide)

/-- C9: the overlap predicate holds iff neither box is fully to the
left of, fully to the right of, fully above, or fully below the other. -/
theorem elements_overlap_iff (bounds1 bounds2 : Bounds) :
    elements_overlap bounds1 bounds2 = true ↔
      ¬(fully_left_of bounds1 bounds2 ∨ fully_left_of bounds2 bounds1 ∨
        fully_above bounds1 bounds2 ∨ fully_above bounds2 bounds1) := by
  simp only [elements_overlap, fully_left_of, fully_above, Bool.not_eq_true',
    Bool.or_eq_false_iff, decide_eq_false_iff_not, not_or]
  tauto

/-! ### Claim theorems (bitmap comparator) -/

/-- C1: evaluation of `_compare_images` on a 1×1 solid-black reference vs.
a 1×1 solid-white actual image (every pixel maximally different, equal
sizes, default pixel tolerance 5).  The claim (and spec §4.1/§8) expects
similarity exactly 0.0; the code's numpy uint8 subtraction wraps
(`0 - 255 ≡ 1 (mod 256)`), giving MSE 1 and similarity
`65024/65025 ≈ 0.99998 ≠ 0`.  `difference_percentage` is 100 as claimed,
since `ImageChops.difference` computes true absolute differences. -/
theorem bitmap_black_white_similarity_eval :
    (compare_images id_resize black1x1 white1x1 5).1 = 65024 / 65025 ∧
    (compare_images id_resize black1x1 white1x1 5).1 ≠ 0 ∧
    ("difference_percentage", (100 : ℚ)) ∈ (compare_images id_resize black1x1 white1x1 5).2 := by
  have h1 : (compare_images id_resize black1x1 white1x1 5).1 = 65024 / 65025 := by
    norm_num [compare_images, compare_images_core, similarity, mse, black1x1, white1x1,
      Img.size, Img.channels, u8_sq_diff, u8_sub, id_resize]
  refine ⟨h1, by rw [h1]; norm_num, ?_⟩
  norm_num [compare_images, compare_images_core, difference_percentage, different_pixels,
    total_pixels, abs_diff, black1x1, white1x1, Img.size, Img.channels, id_resize]

/-- C2 counterexample: on a reference and actual image of different sizes,
the metrics dict of `_compare_images` carries exactly the keys `mse`,
`different_pixels`, `total_pixels` and `difference_percentage` — there is
no `resized` entry, so the verdict does not record whether a resize
occurred. -/
theorem no_resized_metric :
    Img.size black1x1 ≠ Img.size black1x2 ∧
    (compare_images id_resize black1x1 black1x2 5).2.map Prod.fst =
      ["mse", "different_pixels", "total_pixels", "difference_percentage"] ∧
    "resized" ∉ (compare_images id_resize black1x1 black1x2 5).2.map Prod.fst := by
  refine ⟨by decide, ?_, ?_⟩ <;>
    simp [compare_images, compare_images_core, black1x1, black1x2, Img.size]

/-- C2 (amended): when the dimensions differ it is the actual image
(`img2`), never the reference, that is passed to the resampling primitive,
with the reference's dimensions as target (the source uses PIL's
high-quality `Image.Resampling.LANCZOS` filter); when they agree no resize
happens; but in both cases the metrics keys are exactly the four
difference statistics — no `resized` entry records whether a resize
occurred. -/
theorem resize_direction_and_metric_keys (resize : Img → ℕ × ℕ → Img)
    (img1 img2 : Img) (tolerance : ℕ) :
    (img1.size ≠ img2.size →
      compare_images resize img1 img2 tolerance =
        compare_images_core img1 (resize img2 img1.size) tolerance) ∧
    (img1.size = img2.size →
      compare_images resize img1 img2 tolerance =
        compare_images_core img1 img2 tolerance) ∧
    (compare_images resize img1 img2 tolerance).2.map Prod.fst =
      ["mse", "different_pixels", "total_pixels", "difference_percentage"] := by
  refine ⟨fun h => ?_, fun h => ?_, ?_⟩
  · simp [compare_images, h]
  · simp [compare_images, h]
  · by_cases h : img1.size = img2.size <;>
      simp [compare_images, compare_images_core, h]

/-- Witness for `resize_direction_and_metric_keys` on two images of
different sizes. -/
theorem resize_direction_witness :
    compare_images id_resize black1x1 black1x2 5 =
      compare_images_core black1x1 (id_resize black1x2 (Img.size black1x1)) 5 :=
  (resize_direction_and_metric_keys id_resize black1x1 black1x2 5).1 (by decide)

/-! ### Claim theorems (color parsing) -/

/-- C4 counterexample: `_parse_color` accepts `"rgb(300, 0, 0)"` — the
regex `\d+` puts no upper bound on a channel — and returns the unclamped
triple (300, 0, 0), whose first channel is not in [0,255]. -/
theorem parse_color_out_of_range :
    parse_color "rgb(300, 0, 0)" = some (300, 0, 0) ∧ ¬(300 ≤ 255) := by
  exact ⟨by decide, by decide⟩

lemma hex_val_le_15 (c : Char) : hex_val c ≤ 15 := by
  unfold hex_val
  split
  · rename_i h
    unfold Char.isDigit at h
    simp only [Bool.and_eq_true, decide_eq_true_eq] at h
    have h2 : c.toNat ≤ 57 := h.2
    have h0 : Char.toNat '0' = 48 := rfl
    omega
  · split
    · rename_i h
      have h2 : c.toNat ≤ 102 := Char.le_def.mp h.2
      have ha : Char.toNat 'a' = 97 := rfl
      omega
    · split
      · rename_i h
        have h2 : c.toNat ≤ 70 := Char.le_def.mp h.2
        have hA : Char.toNat 'A' = 65 := rfl
        omega
      · omega

lemma match_hex_pair_le {l rest : List Char} {v : ℕ}
    (h : match_hex_pair l = some (v, rest)) : v ≤ 255 := by
  unfold match_hex_pair at h
  split at h
  · split at h
    · rename_i a b r2 heq2
      simp only [Option.some.injEq, Prod.mk.injEq] at h
      obtain ⟨hv, -⟩ := h
      have ha := hex_val_le_15 a
      have hb := hex_val_le_15 b
      omega
    · exact absurd h (by simp)
  · exact absurd h (by simp)

/-- C4 (amended): a successful parse always comes from one of the three
regexes (anything else, including empty and `transparent` input, yields
`None`, never a guessed or clamped value), and hex parsing always yields
channels in [0,255]; but `rgb()`/`rgba()` channels are the unclamped
decimal values and may exceed 255. -/
theorem parse_color_amended :
    (∀ (s : String) (c : ℕ × ℕ × ℕ), parse_color s = some c →
      match_rgb s.data = some c ∨ match_rgba s.data = some c ∨ match_hex s.data = some c) ∧
    (∀ (l : List Char) (r g b : ℕ), match_hex l = some (r, g, b) →
      r ≤ 255 ∧ g ≤ 255 ∧ b ≤ 255) := by
  constructor
  · intro s c h
    unfold parse_color at h
    split at h
    · exact absurd h (by simp)
    · cases hrgb : match_rgb s.data with
      | some c1 =>
        simp only [hrgb] at h
        exact Or.inl h
      | none =>
        simp only [hrgb] at h
        cases hrgba : match_rgba s.data with
        | some c2 =>
          simp only [hrgba] at h
          exact Or.inr (Or.inl h)
        | none =>
          simp only [hrgba] at h
          exact Or.inr (Or.inr h)
  · intro l r g b h
    unfold match_hex at h
    split at h
    · exact absurd h (by simp)
    · split at h
      · exact absurd h (by simp)
      · split at h
        · exact absurd h (by simp)
        · split at h
          · exact absurd h (by simp)
          · rename_i x1 l1 hcq x2 v1 l2 hp1 x3 v2 l3 hp2 x4 v3 l4 hp3
            simp only [Option.some.injEq, Prod.mk.injEq] at h
            obtain ⟨h1, h2, h3⟩ := h
            exact ⟨h1 ▸ match_hex_pair_le hp1, h2 ▸ match_hex_pair_le hp2,
              h3 ▸ match_hex_pair_le hp3⟩

/-- Witness for `parse_color_amended` at `"#ff0000"`. -/
theorem parse_color_amended_witness :
    (match_rgb "#ff0000".data = some (255, 0, 0) ∨
     match_rgba "#ff0000".data = some (255, 0, 0) ∨
     match_hex "#ff0000".data = some (255, 0, 0)) ∧
    (255 ≤ 255 ∧ 0 ≤ 255 ∧ 0 ≤ 255) :=
  ⟨parse_color_amended.1 "#ff0000" (255, 0, 0) (by decide),
   parse_color_amended.2 "#ff0000".data 255 0 0 (by decide)⟩

/-- C7: `"rgb(255, 0, 0)"` and `"#ff0000"` both parse to (255,0,0);
`"transparent"` yields a parse failure, not a default color; and the
contrast check on an unparseable color fails with the explicit
"Could not determine text or background color" message. -/
theorem parse_examples_and_unparseable_verdict :
    parse_color "rgb(255, 0, 0)" = some (255, 0, 0) ∧
    parse_color "#ff0000" = some (255, 0, 0) ∧
    parse_color "transparent" = none ∧
    check_element_contrast "transparent" "rgb(255, 255, 255)" false 4.5 3.0 =
      ⟨false, [⟨"contrast_ratio", false,
                "Could not determine text or background color", none, none, none⟩]⟩ := by
  refine ⟨by decide, by decide, by decide, ?_⟩
  rfl

/-! ### Grid alignment helper lemmas -/

lemma check_positions_row_col (a b m : String) (ps : List ℕ) (tol : ℕ) :
    (check_positions a b m ps tol).row = none ∧ (check_positions a b m ps tol).col = none := by
  unfold check_positions
  split
  · exact ⟨rfl, rfl⟩
  · dsimp only
    split
    · exact ⟨rfl, rfl⟩
    · exact ⟨rfl, rfl⟩

lemma check_horizontal_two (bs : List Bounds) (tol : ℕ) :
    ∃ c1 c2, (check_horizontal_alignment bs tol ⟨true, []⟩).checks = [c1, c2] ∧
      c1.row = none ∧ c1.col = none ∧ c2.row = none ∧ c2.col = none :=
  ⟨_, _, rfl, (check_positions_row_col _ _ _ _ _).1, (check_positions_row_col _ _ _ _ _).2,
    (check_positions_row_col _ _ _ _ _).1, (check_positions_row_col _ _ _ _ _).2⟩

lemma check_vertical_two (bs : List Bounds) (tol : ℕ) :
    ∃ c1 c2, (check_vertical_alignment bs tol ⟨true, []⟩).checks = [c1, c2] ∧
      c1.row = none ∧ c1.col = none ∧ c2.row = none ∧ c2.col = none :=
  ⟨_, _, rfl, (check_positions_row_col _ _ _ _ _).1, (check_positions_row_col _ _ _ _ _).2,
    (check_positions_row_col _ _ _ _ _).1, (check_positions_row_col _ _ _ _ _).2⟩

lemma filter_len_zero {l : List Check} {p : Check → Bool} (h : ∀ c ∈ l, p c = false) :
    (l.filter p).length = 0 := by
  induction l with
  | nil => rfl
  | cons a t ih =>
    rw [List.filter_cons, h a (by simp)]
    exact ih (fun c hc => h c (by simp [hc]))

lemma filter_row_tagged_map_self (l : List Check) (i : ℕ) :
    ((l.map (tag_row i)).filter (row_tagged i)).length = l.length := by
  induction l with
  | nil => rfl
  | cons a t ih => simp [row_tagged, tag_row, List.filter_cons, ih]

lemma filter_row_tagged_map_ne (l : List Check) {i j : ℕ} (h : i ≠ j) :
    ((l.map (tag_row i)).filter (row_tagged j)).length = 0 := by
  induction l with
  | nil => rfl
  | cons a t ih => simp [row_tagged, tag_row, List.filter_cons, h, ih]

lemma filter_col_tagged_map_self (l : List Check) (j : ℕ) :
    ((l.map (tag_col j)).filter (col_tagged j)).length = l.length := by
  induction l with
  | nil => rfl
  | cons a t ih => simp [col_tagged, tag_col, List.filter_cons, ih]

lemma filter_col_tagged_map_ne (l : List Check) {i j : ℕ} (h : i ≠ j) :
    ((l.map (tag_col i)).filter (col_tagged j)).length = 0 := by
  induction l with
  | nil => rfl
  | cons a t ih => simp [col_tagged, tag_col, List.filter_cons, h, ih]

lemma grid_row_checks_shape (tol : ℕ) :
    ∀ (rows : List (List Bounds)) (n : ℕ), ∀ c ∈ grid_row_checks tol n rows,
      c.col = none ∧ ∃ k, n ≤ k ∧ c.row = some k := by
  intro rows
  induction rows with
  | nil => intro n c hc; simp [grid_row_checks] at hc
  | cons r rest ih =>
    intro n c hc
    simp only [grid_row_checks, List.mem_append] at hc
    rcases hc with hc | hc
    · by_cases hr : 1 < r.length
      · rw [if_pos hr] at hc
        obtain ⟨c0, hc0, rfl⟩ := List.mem_map.mp hc
        obtain ⟨c1, c2, heq, h1r, h1c, h2r, h2c⟩ := check_horizontal_two r tol
        rw [heq] at hc0
        have hcol : c0.col = none := by
          rcases (by simpa using hc0 : c0 = c1 ∨ c0 = c2) with rfl | rfl <;> assumption
        exact ⟨by simp [tag_row, hcol], n, le_refl n, by simp [tag_row]⟩
      · rw [if_neg hr] at hc; simp at hc
    · obtain ⟨hcol, k, hk, hrow⟩ := ih (n + 1) c hc
      exact ⟨hcol, k, by omega, hrow⟩

lemma grid_col_checks_shape (tol : ℕ) (rows : List (List Bounds)) :
    ∀ (count j : ℕ), ∀ c ∈ grid_col_checks tol rows j count,
      c.row = none ∧ ∃ k, j ≤ k ∧ c.col = some k := by
  intro count
  induction count with
  | zero => intro j c hc; simp [grid_col_checks] at hc
  | succ k ih =>
    intro j c hc
    simp only [grid_col_checks, List.mem_append] at hc
    rcases hc with hc | hc
    · by_cases hr : 1 < (column_elems rows j).length
      · rw [if_pos hr] at hc
        obtain ⟨c0, hc0, rfl⟩ := List.mem_map.mp hc
        obtain ⟨c1, c2, heq, h1r, h1c, h2r, h2c⟩ := check_vertical_two (column_elems rows j) tol
        rw [heq] at hc0
        have hrow : c0.row = none := by
          rcases (by simpa using hc0 : c0 = c1 ∨ c0 = c2) with rfl | rfl <;> assumption
        exact ⟨by simp [tag_col, hrow], j, le_refl j, by simp [tag_col]⟩
      · rw [if_neg hr] at hc; simp at hc
    · obtain ⟨hrow, k2, hk, hcol⟩ := ih (j + 1) c hc
      exact ⟨hrow, k2, by omega, hcol⟩

lemma grid_row_checks_filter (tol : ℕ) :
    ∀ (rows : List (List Bounds)) (n i : ℕ) (h : i < rows.length),
      ((grid_row_checks tol n rows).filter (row_tagged (n + i))).length =
        if 1 < (rows.get ⟨i, h⟩).length then 2 else 0 := by
  intro rows
  induction rows with
  | nil => intro n i h; exact absurd h (Nat.not_lt_zero i)
  | cons r rest ih =>
    intro n i h
    match i with
    | 0 =>
      simp only [Nat.add_zero, grid_row_checks, List.filter_append, List.length_append,
        List.get]
      have htail : ((grid_row_checks tol (n + 1) rest).filter (row_tagged n)).length = 0 := by
        apply filter_len_zero
        intro c hc
        obtain ⟨-, k, hk, hrow⟩ := grid_row_checks_shape tol rest (n + 1) c hc
        simp only [row_tagged, hrow]
        simp
        omega
      rw [htail, Nat.add_zero]
      by_cases hr : 1 < r.length
      · rw [if_pos hr, if_pos hr]
        obtain ⟨c1, c2, heq, -, -, -, -⟩ := check_horizontal_two r tol
        rw [heq, filter_row_tagged_map_self]
        rfl
      · rw [if_neg hr, if_neg hr]
        rfl
    | Nat.succ k =>
      simp only [grid_row_checks, List.filter_append, List.length_append, List.get]
      have hhead : ((if 1 < r.length then
          ((check_horizontal_alignment r tol ⟨true, []⟩).checks).map (tag_row n)
        else []).filter (row_tagged (n + (k + 1)))).length = 0 := by
        by_cases hr : 1 < r.length
        · rw [if_pos hr]
          exact filter_row_tagged_map_ne _ (by omega)
        · rw [if_neg hr]; rfl
      rw [hhead, Nat.zero_add]
      rw [show n + (k + 1) = (n + 1) + k by omega]
      exact ih (n + 1) k (by simpa using h)

lemma grid_col_checks_filter (tol : ℕ) (rows : List (List Bounds)) :
    ∀ (count j d : ℕ), d < count →
      ((grid_col_checks tol rows j count).filter (col_tagged (j + d))).length =
        if 1 < (column_elems rows (j + d)).length then 2 else 0 := by
  intro count
  induction count with
  | zero => intro j d hd; exact absurd hd (Nat.not_lt_zero d)
  | succ cnt ih =>
    intro j d hd
    match d with
    | 0 =>
      simp only [Nat.add_zero, grid_col_checks, List.filter_append, List.length_append]
      have htail : ((grid_col_checks tol rows (j + 1) cnt).filter (col_tagged j)).length = 0 := by
        apply filter_len_zero
        intro c hc
        obtain ⟨-, k, hk, hcol⟩ := grid_col_checks_shape tol rows cnt (j + 1) c hc
        simp only [col_tagged, hcol]
        simp
        omega
      rw [htail, Nat.add_zero]
      by_cases hr : 1 < (column_elems rows j).length
      · rw [if_pos hr, if_pos hr]
        obtain ⟨c1, c2, heq, -, -, -, -⟩ := check_vertical_two (column_elems rows j) tol
        rw [heq, filter_col_tagged_map_self]
        rfl
      · rw [if_neg hr, if_neg hr]
        rfl
    | Nat.succ d2 =>
      simp only [grid_col_checks, List.filter_append, List.length_append]
      have hhead : ((if 1 < (column_elems rows j).length then
          ((check_vertical_alignment (column_elems rows j) tol ⟨true, []⟩).checks).map (tag_col j)
        else []).filter (col_tagged (j + (d2 + 1)))).length = 0 := by
        by_cases hr : 1 < (column_elems rows j).length
        · rw [if_pos hr]
          exact filter_col_tagged_map_ne _ (by omega)
        · rw [if_neg hr]; rfl
      rw [hhead, Nat.zero_add]
      rw [show j + (d2 + 1) = (j + 1) + d2 by omega]
      exact ih (j + 1) d2 (by omega)

/-! ### Claim theorems (grid alignment) -/

/-- C3 counterexample: a whole row uniformly shifted by 20px keeps every
row internally aligned and every column's x positions unchanged, so the
grid check reports zero failing rows (the claim expects exactly one) and
passes overall; moreover a row with a single box (seven boxes in three
columns) is never evaluated or reported at all, even though the row
partition has three rows. -/
theorem grid_uniform_shift_not_detected :
    ((check_grid_alignment uniformly_shifted_grid 3 5 ⟨true, []⟩).checks.filter
        (fun c => !c.passed)) = [] ∧
    (check_grid_alignment uniformly_shifted_grid 3 5 ⟨true, []⟩).passed = true ∧
    ((check_grid_alignment seven_box_grid 3 5 ⟨true, []⟩).checks.filter (row_tagged 2)) = [] ∧
    2 < (chunk_rows 3 seven_box_grid).length := by decide

/-- C3 (amended): in grid mode every row and every column containing at
least two boxes is evaluated and reported — exactly two checks tagged with
its index, regardless of what other rows or columns do (no
short-circuiting; rows/columns with fewer than two boxes are skipped);
and in the 6-box 3-column scenario with one box of the second row shifted
20px (tolerance 5), exactly the second row's two checks fail while the
first row's checks and all column checks pass. -/
theorem grid_rows_columns_reported :
    (∀ (bounds_list : List Bounds) (columns tolerance i : ℕ)
        (h : i < (chunk_rows columns bounds_list).length),
        (((check_grid_alignment bounds_list columns tolerance ⟨true, []⟩).checks).filter
            (row_tagged i)).length =
          if 1 < ((chunk_rows columns bounds_list).get ⟨i, h⟩).length then 2 else 0) ∧
    (∀ (bounds_list : List Bounds) (columns tolerance j : ℕ), j < columns →
        (((check_grid_alignment bounds_list columns tolerance ⟨true, []⟩).checks).filter
            (col_tagged j)).length =
          if 1 < (column_elems (chunk_rows columns bounds_list) j).length then 2 else 0) ∧
    ((check_grid_alignment one_box_shifted_grid 3 5 ⟨true, []⟩).passed = false ∧
      ((check_grid_alignment one_box_shifted_grid 3 5 ⟨true, []⟩).checks.filter
          (fun c => !c.passed)).map (fun c => (c.row, c.col)) =
        [(some 1, none), (some 1, none)] ∧
      ((check_grid_alignment one_box_shifted_grid 3 5 ⟨true, []⟩).checks.filter
          (fun c => decide (c.col ≠ none))).all (fun c => c.passed) = true ∧
      ((check_grid_alignment one_box_shifted_grid 3 5 ⟨true, []⟩).checks.filter
          (row_tagged 0)).all (fun c => c.passed) = true) := by
  refine ⟨?_, ?_, by decide⟩
  · intro bs cols tol i h
    simp only [check_grid_alignment, List.nil_append, List.filter_append, List.length_append]
    have hcol : ((grid_col_checks tol (chunk_rows cols bs) 0 cols).filter
        (row_tagged i)).length = 0 := by
      apply filter_len_zero
      intro c hc
      obtain ⟨hrow, -⟩ := grid_col_checks_shape tol (chunk_rows cols bs) cols 0 c hc
      simp [row_tagged, hrow]
    rw [hcol, Nat.add_zero]
    have := grid_row_checks_filter tol (chunk_rows cols bs) 0 i h
    simpa using this
  · intro bs cols tol j hj
    simp only [check_grid_alignment, List.nil_append, List.filter_append, List.length_append]
    have hrow : ((grid_row_checks tol 0 (chunk_rows cols bs)).filter
        (col_tagged j)).length = 0 := by
      apply filter_len_zero
      intro c hc
      obtain ⟨hcol, -⟩ := grid_row_checks_shape tol (chunk_rows cols bs) 0 c hc
      simp [col_tagged, hcol]
    rw [hrow, Nat.zero_add]
    have := grid_col_checks_filter tol (chunk_rows cols bs) cols 0 j hj
    simpa using this

/-- Witness for `grid_rows_columns_reported` at the shifted 6-box grid. -/
theorem grid_rows_columns_reported_witness :
    ((((check_grid_alignment one_box_shifted_grid 3 5 ⟨true, []⟩).checks).filter
        (row_tagged 1)).length =
      if 1 < ((chunk_rows 3 one_box_shifted_grid).get ⟨1, by decide⟩).length then 2 else 0) ∧
    ((((check_grid_alignment one_box_shifted_grid 3 5 ⟨true, []⟩).checks).filter
        (col_tagged 0)).length =
      if 1 < (column_elems (chunk_rows 3 one_box_shifted_grid) 0).length then 2 else 0) :=
  ⟨grid_rows_columns_reported.1 one_box_shifted_grid 3 5 1 (by decide),
   grid_rows_columns_reported.2.1 one_box_shifted_grid 3 5 0 (by decide)⟩

end GuiVerification
